import Mathlib

/-!
Verification development for the toolchain of the Simplicity MCP server
orchestration layer (src/lib/simplicity-tools.ts and src/lib/handlers.ts).
Source text is modelled as `List Char` / `String`; the JS regular
expressions used by the validator are translated into explicit character
scanners with the same semantics on the ASCII sources involved.
-/

set_option maxRecDepth 100000

namespace SimplicityMCP

/-- JS regex class `\s`, restricted to the ASCII whitespace characters
that occur in contract source text. -/
def isSpaceChar (c : Char) : Bool :=
  c == ' ' || c == '\t' || c == '\n' || c == '\r' || c == '\x0b' || c == '\x0c'

/-- JS regex class `\w`: ASCII letters, digits and underscore. -/
def isWordChar (c : Char) : Bool :=
  (c.isAlpha || c.isDigit) || c == '_'

/-- Does `pat` occur at the head of `s`? -/
def startsWithL : List Char → List Char → Bool
  | [], _ => true
  | _ :: _, [] => false
  | p :: ps, c :: cs => p == c && startsWithL ps cs

/-- Does `pat` occur as a contiguous substring of the list (JS
`String.prototype.includes`)? -/
def containsSubL (pat : List Char) : List Char → Bool
  | [] => startsWithL pat []
  | c :: rest => startsWithL pat (c :: rest) || containsSubL pat rest

/-- JS `source.includes(pat)`. -/
def containsSub (pat s : String) : Bool := containsSubL pat.data s.data

/-- Consume an exact literal at the head of the input, returning the rest. -/
def expectLit : List Char → List Char → Option (List Char)
  | [], l => some l
  | _ :: _, [] => none
  | p :: ps, c :: cs => if p == c then expectLit ps cs else none

/-- Consume one or more characters satisfying `p` (regex `p+`, greedy).
Because every character class in the regexes below is disjoint from the
class that follows it, the greedy match is exact. -/
def expectPlus (p : Char → Bool) : List Char → Option (List Char)
  | [] => none
  | c :: cs => if p c then some (cs.dropWhile p) else none

/-- The body of regex `let\s+\w+`, matched at the head of the input. -/
def matchTopLevelLetAt (l : List Char) : Bool :=
  (do
    let r1 ← expectLit "let".data l
    let r2 ← expectPlus isSpaceChar r1
    let _ ← expectPlus isWordChar r2
    pure ()) |>.isSome

/-- The body of regex `if\s+\w+`, matched at the head of the input. -/
def matchIfAt (l : List Char) : Bool :=
  (do
    let r1 ← expectLit "if".data l
    let r2 ← expectPlus isSpaceChar r1
    let _ ← expectPlus isWordChar r2
    pure ()) |>.isSome

/-- The body of regex `match\s+\w+`, matched at the head of the input. -/
def matchMatchAt (l : List Char) : Bool :=
  (do
    let r1 ← expectLit "match".data l
    let r2 ← expectPlus isSpaceChar r1
    let _ ← expectPlus isWordChar r2
    pure ()) |>.isSome

/-- The body of regex `let\s+\w+\s*=\s*\w+\(`, matched at the head of the
input. -/
def matchAssignFromCallAt (l : List Char) : Bool :=
  (do
    let r1 ← expectLit "let".data l
    let r2 ← expectPlus isSpaceChar r1
    let r3 ← expectPlus isWordChar r2
    let r4 := r3.dropWhile isSpaceChar
    let r5 ← expectLit "=".data r4
    let r6 := r5.dropWhile isSpaceChar
    let r7 ← expectPlus isWordChar r6
    let _ ← expectLit "(".data r7
    pure ()) |>.isSome

/-- The body of regex `fn\s+(?!main)\w+\s*\(`, matched at the head of the
input.  The negative lookahead cannot be rescued by backtracking `\s+`
(a shorter space run leaves a space where `\w+` must match), so testing
it once after the maximal space run is exact. -/
def matchCustomFnAt (l : List Char) : Bool :=
  (do
    let r1 ← expectLit "fn".data l
    let r2 ← expectPlus isSpaceChar r1
    let _ ← (if startsWithL "main".data r2 then none else some ())
    let r3 ← expectPlus isWordChar r2
    let r4 := r3.dropWhile isSpaceChar
    let _ ← expectLit "(".data r4
    pure ()) |>.isSome

/-- Scan every suffix of the input, carrying the character immediately
before the suffix (`none` at the start of the string), and report whether
the matcher fires anywhere. -/
def scanWithPrev (m : Option Char → List Char → Bool) : Option Char → List Char → Bool
  | prev, [] => m prev []
  | prev, c :: rest => m prev (c :: rest) || scanWithPrev m (some c) rest

/-- JS multiline anchor `^`: start of string, or right after a line
terminator. -/
def atLineStart : Option Char → Bool
  | none => true
  | some c => c == '\n' || c == '\r'

/-- JS word boundary `\b` before a word character: start of string, or a
preceding non-word character. -/
def atWordBoundary : Option Char → Bool
  | none => true
  | some c => !isWordChar c

/-- Test of regex `/^let\s+\w+/m` against the whole source. -/
def hasTopLevelLet (s : String) : Bool :=
  scanWithPrev (fun prev l => atLineStart prev && matchTopLevelLetAt l) none s.data

/-- Test of regex `/\bif\s+\w+/` against the whole source. -/
def hasIfStatement (s : String) : Bool :=
  scanWithPrev (fun prev l => atWordBoundary prev && matchIfAt l) none s.data

/-- Test of regex `/\bmatch\s+\w+/` against the whole source. -/
def hasMatchExpr (s : String) : Bool :=
  scanWithPrev (fun prev l => atWordBoundary prev && matchMatchAt l) none s.data

/-- Test of regex `/let\s+\w+\s*=\s*\w+\(/` against the whole source. -/
def hasAssignFromCall (s : String) : Bool :=
  scanWithPrev (fun _ l => matchAssignFromCallAt l) none s.data

/-- Test of regex `/fn\s+(?!main)\w+\s*\(/` against the whole source. -/
def hasCustomFn (s : String) : Bool :=
  scanWithPrev (fun _ l => matchCustomFnAt l) none s.data

/-- Result record of `validateSyntax`. -/
structure ValidationResult where
  valid : Bool
  errors : List String
  warnings : List String
  suggestions : List String
deriving Repr, DecidableEq

def topLevelLetError : String :=
  "Top-level `let` declarations are not supported. Move all `let` statements inside the `main()` function."

def topLevelLetSuggestion : String :=
  "Example: fn main() \x7b let x: u32 = 42; () \x7d"

def witnessWarning : String :=
  "IMPORTANT: `witness` is not available in current simc version. Use hardcoded values for now."

def witnessSuggestion : String :=
  "Replace `let x = witness(\"value\")` with `let x: u32 = 42` (hardcoded value)"

def ifElseError : String :=
  "Conditional statements (if/else) are not supported in current simc version."

def ifElseSuggestion : String :=
  "Use `assert!()` for validation instead of conditional logic."

def matchUnsupportedError : String :=
  "Pattern matching with `match` is not supported in current simc version."

def unsupportedJets : List String :=
  ["gt_32", "ge_32", "and", "or", "not", "sha256", "sha256_32", "verify",
   "current_block_height", "check_sig"]

def jetWarning (jet : String) : String :=
  "jet::" ++ jet ++ " may not be available. Supported jets: eq_32, lt_32, le_32"

def assignFromCallWarning : String :=
  "Assigning function return values may fail if the function returns a complex type (tuple, etc)."

def assignFromCallSuggestion : String :=
  "Ensure functions return simple types (u32, bool, ())"

def missingMainError : String :=
  "Missing `fn main()` function. Every program must have a main() function."

def customFnWarning : String :=
  "Custom functions have limited support. Keep functions simple and test thoroughly."

/-- Translation of `SimplicityTools.validateSyntax`.  Each check appends
to `errors`, `warnings` or `suggestions` in the order the source pushes
them; `valid` is computed as `errors.length === 0`. -/
def validateSyntax (source : String) : ValidationResult :=
  let e1 := if hasTopLevelLet source then [topLevelLetError] else []
  let sg1 := if hasTopLevelLet source then [topLevelLetSuggestion] else []
  let w1 := if containsSub "witness" source then [witnessWarning] else []
  let sg2 := if containsSub "witness" source then [witnessSuggestion] else []
  let e2 := if hasIfStatement source then [ifElseError] else []
  let sg3 := if hasIfStatement source then [ifElseSuggestion] else []
  let e3 := if hasMatchExpr source then [matchUnsupportedError] else []
  let w2 := (unsupportedJets.filter
    (fun jet => containsSub ("jet::" ++ jet) source)).map jetWarning
  let w3 := if hasAssignFromCall source then [assignFromCallWarning] else []
  let sg4 := if hasAssignFromCall source then [assignFromCallSuggestion] else []
  let e4 := if containsSub "fn main()" source then [] else [missingMainError]
  let w4 := if hasCustomFn source then [customFnWarning] else []
  let errors := e1 ++ e2 ++ e3 ++ e4
  { valid := errors.length == 0
    errors := errors
    warnings := w1 ++ w2 ++ w3 ++ w4
    suggestions := sg1 ++ sg2 ++ sg3 ++ sg4 }

/-- Enumerated argument of `SimplicityTools.generateExample`. -/
inductive ExamplePattern where
  | minimal
  | comparison
  | assertion
deriving Repr, DecidableEq

/-- Translation of `SimplicityTools.generateExample`: the literal example
sources, byte for byte (including trailing spaces on blank lines). -/
def generateExample : ExamplePattern → String
  | .minimal =>
      "// Minimal working Simplicity program\nfn main() \x7b\n    ()\n\x7d"
  | .comparison =>
      "// Example using comparison jets\nfn main() \x7b\n    let a: u32 = 100;\n    let b: u32 = 50;\n    \n    // Compare values\n    let equal: bool = jet::eq_32(a, b);\n    let less_than: bool = jet::lt_32(b, a);\n    let less_or_eq: bool = jet::le_32(b, a);\n    \n    ()\n\x7d"
  | .assertion =>
      "// Example using assertions for validation\nfn main() \x7b\n    let value: u32 = 42;\n    let expected: u32 = 42;\n    \n    // Verify value matches expected\n    let is_valid: bool = jet::eq_32(value, expected);\n    assert!(is_valid);\n    \n    ()\n\x7d"

def eoiSuggestion1 : String :=
  "This error usually means a top-level declaration is not allowed."

def eoiSuggestion2 : String :=
  "Move all `let` statements inside fn main() \x7b ... \x7d"

def callArgsSuggestion1 : String :=
  "This might be due to: 1) using witness which is not available, 2) incorrect function call syntax, or 3) trying to assign a tuple return value"

def callArgsSuggestion2 : String :=
  "Try using simple types and hardcoded values"

def jetMissingSuggestion1 : String :=
  "This jet is not available in current simc version."

def jetMissingSuggestion2 : String :=
  "Available jets: eq_32, lt_32, le_32"

def typeMismatchSuggestion1 : String :=
  "Type mismatch detected. Some jets return tuples (like add_32 returns (bool, u32))"

def typeMismatchSuggestion2 : String :=
  "Use jets that return simple types: eq_32, lt_32, le_32"

def genericSuggestion : String :=
  "Check the simc documentation or use generateExample() to see working patterns"

/-- Translation of `SimplicityTools.suggestFix`: all matching diagnostic
signatures contribute their canned suggestions, and the generic fallback
is appended exactly when nothing matched. -/
def suggestFix (errorMessage : String) : List String :=
  let s1 := if containsSub "expected EOI or item" errorMessage then
      [eoiSuggestion1, eoiSuggestion2] else []
  let s2 := if containsSub "Grammar error: expected call_args" errorMessage then
      [callArgsSuggestion1, callArgsSuggestion2] else []
  let s3 := if containsSub "Jet" errorMessage && containsSub "does not exist" errorMessage then
      [jetMissingSuggestion1, jetMissingSuggestion2] else []
  let s4 := if containsSub "Expected expression of type" errorMessage then
      [typeMismatchSuggestion1, typeMismatchSuggestion2] else []
  let suggestions := s1 ++ s2 ++ s3 ++ s4
  if suggestions.length == 0 then [genericSuggestion] else suggestions

/-- JS String.prototype.trim on a character list (the whitespace class of
the sources involved is ASCII). -/
def trimL (l : List Char) : List Char :=
  ((l.dropWhile isSpaceChar).reverse.dropWhile isSpaceChar).reverse

/-- JS String.prototype.trim. -/
def trimS (s : String) : String := ⟨trimL s.data⟩

/-- JS String.prototype.split with a single-character separator. -/
def splitOnChar (sep : Char) : List Char → List (List Char)
  | [] => [[]]
  | c :: rest =>
      let r := splitOnChar sep rest
      if c == sep then [] :: r
      else
        match r with
        | [] => [[c]]
        | h :: t => (c :: h) :: t

/-- JS `s.split(sep)` returning strings. -/
def splitS (sep : Char) (s : String) : List String :=
  (splitOnChar sep s.data).map (fun l => ⟨l⟩)

/-- Outcome of one `execAsync` invocation of an external binary: either
the promise resolved with captured stdout/stderr, or it rejected with an
error message. -/
inductive ExecOutcome where
  | ran (stdout stderr : String)
  | threw (message : String)
deriving Repr, DecidableEq

/-- Result record of the compile operations (`CompileResult` in the
source). -/
structure CompileResult where
  success : Bool
  program : Option String := none
  error : Option String := none
  warnings : List String := []
deriving Repr, DecidableEq

/-- Result record of the faucet client (`FaucetResponse` in the source);
its production is an external HTTP call, so deploy-level reasoning takes
the outcome from the environment. -/
structure FaucetResponse where
  success : Bool
  txid : Option String := none
  message : Option String := none
  error : Option String := none
deriving Repr, DecidableEq

/-- Result record of `getProgramInfo` (`ProgramInfo` in the source).  The
`witness_structure` field is declared in the source interface but never
assigned by `getProgramInfo`. -/
structure ProgramInfo where
  address : Option String := none
  program_hash : Option String := none
  witness_structure : Option Unit := none
  error : Option String := none
deriving Repr, DecidableEq

/-- Observable external effects of the toolchain layer: binary probes,
process invocations, temporary-file writes/unlinks, and faucet calls. -/
inductive Event where
  | probeSimc
  | execCompiler (path : String)
  | writeTemp (path : String)
  | unlinkTemp (path : String)
  | probeHal
  | execHal (program : String)
  | faucetRequest (address : String)
deriving Repr, DecidableEq

/-- Is the event an interaction with the inspector binary (address
derivation)? -/
def Event.isAddressDerivation : Event → Bool
  | .probeHal => true
  | .execHal _ => true
  | _ => false

/-- Is the event an invocation of the funding client? -/
def Event.isFunding : Event → Bool
  | .faucetRequest _ => true
  | _ => false

/-- Environment an invocation runs in: availability of the external
binaries, the outcome of each external call, the outcome of the
temporary-file write (`none` means it succeeds), the `Date.now()`
millisecond timestamp, and the outcome of the faucet call with retry. -/
structure ToolEnv where
  simcAvailable : Bool
  halAvailable : Bool
  execSimc : String → ExecOutcome
  execHal : String → ExecOutcome
  writeOutcome : Option String
  now : Nat
  faucet : FaucetResponse

def simcNotFoundError : String :=
  "simc not found. Please install SimplicityHL compiler from https://github.com/BlockstreamResearch/SimplicityHL"

def halNotFoundError : String :=
  "hal-simplicity not found. Please install nums-key branch from https://github.com/apoelstra/hal-simplicity"

/-- JS truthiness of an optional string field: present and non-empty. -/
def optTruthy : Option String → Bool
  | none => false
  | some s => !(s == "")

/-- Warnings derived from the stderr of the compiler in `compileFile`:
`stderr ? stderr.split('\n').filter(Boolean) : []`. -/
def stderrWarnings (stderr : String) : List String :=
  if stderr == "" then [] else (splitS '\n' stderr).filter (fun l => !(l == ""))

/-- Translation of `SimplicityTools.compileFile` over an explicit
filesystem (the list of existing file paths): check the source file
exists, probe the compiler binary, then invoke it; each failure class is
mapped to a distinct error result.  Returns the result together with the
trace of external effects. -/
def compileFile (env : ToolEnv) (fs : List String) (filePath : String) :
    CompileResult × List Event :=
  if !(fs.contains filePath) then
    ({ success := false, error := some ("File not found: " ++ filePath) }, [])
  else if !env.simcAvailable then
    ({ success := false, error := some simcNotFoundError }, [.probeSimc])
  else
    match env.execSimc filePath with
    | .ran out err =>
        ({ success := true, program := some (trimS out), warnings := stderrWarnings err },
         [.probeSimc, .execCompiler filePath])
    | .threw msg =>
        ({ success := false, error := some msg }, [.probeSimc, .execCompiler filePath])

/-- Fuel-based big-endian decimal digit rendering; `natDecCore fuel n` is
the decimal digit characters of `n` whenever `n ≤ fuel`. -/
def natDecCore : Nat → Nat → List Char
  | 0, _ => []
  | _ + 1, 0 => []
  | fuel + 1, n + 1 =>
      natDecCore fuel ((n + 1) / 10) ++ [Nat.digitChar ((n + 1) % 10)]

/-- Decimal rendering of a natural number, modelling the JS
template-literal interpolation of the integer timestamp `Date.now()`. -/
def natToDecimal (n : Nat) : String :=
  if n = 0 then "0" else ⟨natDecCore n n⟩

/-- Temporary file path used by `compileSource` for a given `Date.now()`
value: `/tmp/simplicity-<timestamp>.simf`. -/
def tmpFileName (now : Nat) : String :=
  "/tmp/simplicity-" ++ natToDecimal now ++ ".simf"

/-- Translation of `SimplicityTools.compileSource`: probe the compiler,
write the source to the timestamp-named temporary file, compile that
file, and unlink the temporary file before returning the result (the
source also unlinks in its catch handler before rethrowing; here
`compileFile` is total, so that handler collapses into the same unlink).
A write failure is caught by the outer handler and mapped to an error
result.  Returns the result, the final filesystem, and the effect
trace. -/
def compileSource (env : ToolEnv) (fs : List String) (source : String) :
    CompileResult × List String × List Event :=
  if !env.simcAvailable then
    ({ success := false, error := some simcNotFoundError }, fs, [.probeSimc])
  else
    let tmpFile := tmpFileName env.now
    match env.writeOutcome with
    | some msg =>
        ({ success := false, error := some msg }, fs, [.probeSimc])
    | none =>
        let fs1 := tmpFile :: fs
        let c := compileFile env fs1 tmpFile
        let fs2 := fs1.filter (fun p => !(p == tmpFile))
        (c.1, fs2, [Event.probeSimc, Event.writeTemp tmpFile] ++ c.2 ++ [Event.unlinkTemp tmpFile])

/-- Temporary paths written during an invocation, read off the trace. -/
def tempPathsWritten (trace : List Event) : List String :=
  trace.filterMap (fun e =>
    match e with
    | .writeTemp p => some p
    | _ => none)

/-- JS `line.split(':')[1].trim()` (the index is in range whenever the
line contains a colon; out of range is mapped to the empty string). -/
def partAfterColon (line : String) : String :=
  trimS ((splitS ':' line).getD 1 "")

/-- Line-oriented parsing of the stdout of the inspector in `getProgramInfo`:
a line containing `address:` sets the address, a line containing
`program_hash:` sets the hash, every other line is ignored. -/
def parseProgramInfo (stdout : String) : ProgramInfo :=
  (splitS '\n' stdout).foldl
    (fun info line =>
      if containsSub "address:" line then
        { info with address := some (partAfterColon line) }
      else if containsSub "program_hash:" line then
        { info with program_hash := some (partAfterColon line) }
      else info)
    ({} : ProgramInfo)

/-- Translation of `SimplicityTools.getProgramInfo`: probe the inspector
binary, feed it the encoded program, and parse its line-oriented
output. -/
def getProgramInfo (env : ToolEnv) (program : String) : ProgramInfo × List Event :=
  if !env.halAvailable then
    ({ error := some halNotFoundError }, [.probeHal])
  else
    match env.execHal program with
    | .ran out _ => (parseProgramInfo out, [.probeHal, .execHal program])
    | .threw msg => ({ error := some msg }, [.probeHal, .execHal program])

/-- Aggregated response object of the `contract_deploy` handler. -/
structure DeployResponse where
  success : Bool
  step : Option String := none
  error : Option String := none
  contract_file : Option String := none
  program : Option String := none
  address : Option String := none
  program_hash : Option String := none
  witness_structure : Option Unit := none
  funding : Option FaucetResponse := none
deriving Repr, DecidableEq

/-- Translation of the `contract_deploy` handler: compile, then derive
the program address, then auto-fund when requested and an address was
derived.  A compile failure returns immediately tagged `step: compile`;
an address failure returns tagged `step: get_address` keeping the
compiled program; a funding failure is attached as a sub-result without
discarding the earlier steps. -/
def contract_deploy (env : ToolEnv) (fs : List String)
    (contract_file : String) (auto_fund : Bool) :
    DeployResponse × List Event :=
  let c := compileFile env fs contract_file
  if !c.1.success then
    ({ success := false, step := some "compile", error := c.1.error }, c.2)
  else
    let program := c.1.program.getD ""
    let a := getProgramInfo env program
    if optTruthy a.1.error then
      ({ success := false, step := some "get_address", program := some program,
         error := a.1.error }, c.2 ++ a.2)
    else
      let response : DeployResponse :=
        { success := true, contract_file := some contract_file,
          program := some program, address := a.1.address,
          program_hash := a.1.program_hash,
          witness_structure := a.1.witness_structure }
      if auto_fund && optTruthy a.1.address then
        ({ response with funding := some env.faucet },
         c.2 ++ a.2 ++ [Event.faucetRequest (a.1.address.getD "")])
      else
        (response, c.2 ++ a.2)

/-- Response object of the `simplicity_compile_source` handler. -/
structure CompileSourceResponse where
  success : Bool
  program : Option String := none
  error : Option String := none
  warnings : Option (List String) := none
  validation : Option ValidationResult := none
  suggestions : Option (List String) := none
  validation_warnings : Option (List String) := none
  tip : Option String := none
deriving Repr, DecidableEq

def validationFailedTip : String :=
  "Fix validation errors before compiling. Use simplicity_generate_example for working patterns."

def featuresTip : String :=
  "Use simplicity_get_features to see what simc supports"

/-- Translation of the `simplicity_compile_source` handler: validate the
source and return early (without compiling) when validation reports
errors; otherwise compile from source and, when the compiler fails with
an error, attach fix suggestions. -/
def simplicity_compile_source (env : ToolEnv) (fs : List String) (source : String) :
    CompileSourceResponse × List String × List Event :=
  let validation := validateSyntax source
  if !validation.valid then
    ({ success := false, error := some "Syntax validation failed",
       validation := some validation, tip := some validationFailedTip }, fs, [])
  else
    let r := compileSource env fs source
    let result := r.1
    if !result.success && optTruthy result.error then
      ({ success := result.success, program := result.program,
         error := result.error, warnings := some result.warnings,
         validation := some validation,
         suggestions := some (suggestFix (result.error.getD "")),
         tip := some featuresTip }, r.2.1, r.2.2)
    else
      ({ success := result.success, program := result.program,
         error := result.error, warnings := some result.warnings,
         validation_warnings := some validation.warnings }, r.2.1, r.2.2)

/-- Sample environment: no binaries installed, write succeeds. -/
def envNoSimc : ToolEnv :=
  { simcAvailable := false, halAvailable := false,
    execSimc := fun _ => .threw "spawn failed", execHal := fun _ => .threw "spawn failed",
    writeOutcome := none, now := 0, faucet := { success := false } }

/-- Sample environment: compiler installed but it rejects every source. -/
def envSimcRejects : ToolEnv :=
  { simcAvailable := true, halAvailable := true,
    execSimc := fun _ => .threw "Command failed: simc\nGrammar error: expected call_args",
    execHal := fun _ => .threw "spawn failed",
    writeOutcome := none, now := 0, faucet := { success := false } }

/-- Sample environment: compile and address derivation succeed, faucet
fails. -/
def envFundingFails : ToolEnv :=
  { simcAvailable := true, halAvailable := true,
    execSimc := fun _ => .ran "dGVzdA==\n" "",
    execHal := fun _ => .ran "address: ex1qqsampleaddress\nprogram_hash: 0011aabb\n" "",
    writeOutcome := none, now := 0,
    faucet := { success := false,
                error := some "Failed after 3 attempts. Last error: timeout" } }

/-- Sample environment identical to `envFundingFails` but one millisecond
later. -/
def envNowOne : ToolEnv :=
  { envFundingFails with now := 1 }

/-- Helper: the trace of `compileFile` is one of three shapes, none of
which mentions the inspector, the faucet, or a temporary file. -/
theorem compileFile_trace_cases (env : ToolEnv) (fs : List String) (p : String) :
    (compileFile env fs p).2 = [] ∨
    (compileFile env fs p).2 = [Event.probeSimc] ∨
    (compileFile env fs p).2 = [Event.probeSimc, Event.execCompiler p] := by
  unfold compileFile
  cases h1 : fs.contains p
  · simp [h1]
  · cases h2 : env.simcAvailable
    · simp [h1, h2]
    · cases h3 : env.execSimc p <;> simp [h1, h2, h3]

/-- Helper: `compileFile` performs no address derivation and no funding
call. -/
theorem compileFile_trace_compiler_only (env : ToolEnv) (fs : List String) (p : String) :
    ((compileFile env fs p).2.all
      (fun e => !(e.isAddressDerivation || e.isFunding))) = true := by
  rcases compileFile_trace_cases env fs p with h | h | h <;> rw [h] <;> rfl

/-- Helper: `valid` is literally computed as `errors.length === 0`. -/
theorem validateSyntax_valid_eq (s : String) :
    ( validateSyntax s).valid = (( validateSyntax s).errors.length == 0) := by
  simp [validateSyntax]

/-- C1: every example produced by the Example Generator passes the Syntax
Validator with `valid = true` and an empty `errors` sequence. -/
theorem generateExample_validates (p : ExamplePattern) :
    ( validateSyntax (generateExample p)).valid = true ∧
    ( validateSyntax (generateExample p)).errors = [] := by
  cases p <;> exact ⟨by decide, by decide⟩

/-- C8: the `ValidationResult` returned by `validateSyntax` always
satisfies `valid = true` exactly when `errors` is empty. -/
theorem validateSyntax_valid_iff_no_errors (s : String) :
    ( validateSyntax s).valid = true ↔ ( validateSyntax s).errors = [] := by
  simp [validateSyntax, List.length_eq_zero]

/-- C7: a source matching the conditional check (regex `\bif\s+\w+`) gets
the if/else unsupported error appended, a source matching the
pattern-matching check (regex `\bmatch\s+\w+`) gets the match unsupported
error appended, and in either case the result has `valid = false`. -/
theorem conditional_or_match_invalidates (s : String) :
    (hasIfStatement s = true → ifElseError ∈ ( validateSyntax s).errors) ∧
    (hasMatchExpr s = true → matchUnsupportedError ∈ ( validateSyntax s).errors) ∧
    ((hasIfStatement s = true ∨ hasMatchExpr s = true) →
      ( validateSyntax s).valid = false) := by
  refine ⟨fun h => ?_, fun h => ?_, fun h => ?_⟩
  · simp [validateSyntax, h]
  · simp [validateSyntax, h]
  · rcases h with h | h <;>
      simp [validateSyntax, h, List.length_append, Nat.add_assoc]

/-- C7 witness: the concrete source `"if x"` triggers the if/else error
and is reported invalid. -/
theorem conditional_or_match_invalidates_witness :
    ifElseError ∈ ( validateSyntax "if x").errors ∧
    ( validateSyntax "if x").valid = false :=
  ⟨(conditional_or_match_invalidates "if x").1 (by decide),
   (conditional_or_match_invalidates "if x").2.2 (Or.inl (by decide))⟩

/-- C6: `suggestFix` never returns an empty sequence; every diagnostic
signature that substring-matches the message contributes both of its
canned suggestions; and when no signature matches, the result is exactly
the single generic fallback suggestion. -/
theorem suggestFix_spec (msg : String) :
    suggestFix msg ≠ [] ∧
    (containsSub "expected EOI or item" msg = true →
      eoiSuggestion1 ∈ suggestFix msg ∧ eoiSuggestion2 ∈ suggestFix msg) ∧
    (containsSub "Grammar error: expected call_args" msg = true →
      callArgsSuggestion1 ∈ suggestFix msg ∧ callArgsSuggestion2 ∈ suggestFix msg) ∧
    ((containsSub "Jet" msg && containsSub "does not exist" msg) = true →
      jetMissingSuggestion1 ∈ suggestFix msg ∧ jetMissingSuggestion2 ∈ suggestFix msg) ∧
    (containsSub "Expected expression of type" msg = true →
      typeMismatchSuggestion1 ∈ suggestFix msg ∧ typeMismatchSuggestion2 ∈ suggestFix msg) ∧
    (containsSub "expected EOI or item" msg = false →
      containsSub "Grammar error: expected call_args" msg = false →
      (containsSub "Jet" msg && containsSub "does not exist" msg) = false →
      containsSub "Expected expression of type" msg = false →
      suggestFix msg = [genericSuggestion]) := by
  unfold suggestFix
  cases h1 : containsSub "expected EOI or item" msg <;>
    cases h2 : containsSub "Grammar error: expected call_args" msg <;>
      cases h3 : (containsSub "Jet" msg && containsSub "does not exist" msg) <;>
        cases h4 : containsSub "Expected expression of type" msg <;>
          simp

/-- C6 witness: an unmatched message yields exactly the generic fallback
suggestion. -/
theorem suggestFix_spec_witness :
    suggestFix "boom" = [genericSuggestion] :=
  (suggestFix_spec "boom").2.2.2.2.2 (by decide) (by decide) (by decide) (by decide)

/-- C5: the three failure classes of `compileFile`: a missing source file
is reported before any probe or invocation; a missing compiler binary is
reported with installation guidance before any invocation; a failing
compiler invocation returns the raw process diagnostic as the error. -/
theorem compileFile_failure_classes (env : ToolEnv) (fs : List String) (path : String) :
    (fs.contains path = false →
      compileFile env fs path =
        ({ success := false, error := some ("File not found: " ++ path) }, [])) ∧
    (fs.contains path = true → env.simcAvailable = false →
      compileFile env fs path =
        ({ success := false, error := some simcNotFoundError }, [Event.probeSimc])) ∧
    (∀ msg, fs.contains path = true → env.simcAvailable = true →
      env.execSimc path = .threw msg →
      compileFile env fs path =
        ({ success := false, error := some msg },
         [Event.probeSimc, Event.execCompiler path])) := by
  refine ⟨fun h1 => ?_, fun h1 h2 => ?_, fun msg h1 h2 h3 => ?_⟩
  · unfold compileFile
    rw [h1]
    simp
  · unfold compileFile
    rw [h1, h2]
    simp
  · unfold compileFile
    rw [h1, h2, h3]
    simp

/-- C5 witness: the three failure classes at concrete inputs. -/
theorem compileFile_failure_classes_witness :
    compileFile envNoSimc [] "a.simf" =
      ({ success := false, error := some "File not found: a.simf" }, []) ∧
    compileFile envNoSimc ["a.simf"] "a.simf" =
      ({ success := false, error := some simcNotFoundError }, [Event.probeSimc]) ∧
    compileFile envSimcRejects ["a.simf"] "a.simf" =
      ({ success := false,
         error := some "Command failed: simc\nGrammar error: expected call_args" },
       [Event.probeSimc, Event.execCompiler "a.simf"]) :=
  ⟨(compileFile_failure_classes envNoSimc [] "a.simf").1 (by decide),
   (compileFile_failure_classes envNoSimc ["a.simf"] "a.simf").2.1 (by decide) (by decide),
   (compileFile_failure_classes envSimcRejects ["a.simf"] "a.simf").2.2
     "Command failed: simc\nGrammar error: expected call_args"
     (by decide) (by decide) (by decide)⟩

/-- C2: when compilation fails, `contract_deploy` returns success false,
the step tag `compile` and the compiler error, and its effect trace is
exactly the compile trace, which contains no address-derivation and no
funding events. -/
theorem contract_deploy_compile_short_circuit
    (env : ToolEnv) (fs : List String) (file : String) (auto_fund : Bool)
    (h : (compileFile env fs file).1.success = false) :
    (contract_deploy env fs file auto_fund).1 =
      { success := false, step := some "compile",
        error := (compileFile env fs file).1.error } ∧
    (contract_deploy env fs file auto_fund).2 = (compileFile env fs file).2 ∧
    ((contract_deploy env fs file auto_fund).2.all
      (fun e => !(e.isAddressDerivation || e.isFunding))) = true := by
  refine ⟨by simp [contract_deploy, h], by simp [contract_deploy, h], ?_⟩
  have ht := compileFile_trace_compiler_only env fs file
  simpa [contract_deploy, h] using ht

/-- C2 witness: with the compiler binary missing, deployment stops at the
compile step and touches neither the inspector nor the faucet. -/
theorem contract_deploy_compile_short_circuit_witness :
    (contract_deploy envNoSimc ["c.simf"] "c.simf" true).1 =
      { success := false, step := some "compile", error := some simcNotFoundError } ∧
    ((contract_deploy envNoSimc ["c.simf"] "c.simf" true).2.all
      (fun e => !(e.isAddressDerivation || e.isFunding))) = true :=
  ⟨(contract_deploy_compile_short_circuit envNoSimc ["c.simf"] "c.simf" true (by decide)).1,
   (contract_deploy_compile_short_circuit envNoSimc ["c.simf"] "c.simf" true (by decide)).2.2⟩

/-- C3: when compilation and address derivation succeed, auto-funding is
requested and an address was derived, a failing funding call leaves the
overall result successful, with the program, address and hash still
present and the funding failure attached as a separate sub-result. -/
theorem contract_deploy_funding_failure_keeps_success
    (env : ToolEnv) (fs : List String) (file : String)
    (hc : (compileFile env fs file).1.success = true)
    (ha : optTruthy (getProgramInfo env
      ((compileFile env fs file).1.program.getD "")).1.error = false)
    (haddr : optTruthy (getProgramInfo env
      ((compileFile env fs file).1.program.getD "")).1.address = true)
    (hf : env.faucet.success = false) :
    (contract_deploy env fs file true).1.success = true ∧
    (contract_deploy env fs file true).1.address =
      (getProgramInfo env ((compileFile env fs file).1.program.getD "")).1.address ∧
    (contract_deploy env fs file true).1.program =
      some ((compileFile env fs file).1.program.getD "") ∧
    (contract_deploy env fs file true).1.program_hash =
      (getProgramInfo env ((compileFile env fs file).1.program.getD "")).1.program_hash ∧
    (contract_deploy env fs file true).1.funding = some env.faucet ∧
    env.faucet.success = false := by
  refine ⟨?_, ?_, ?_, ?_, ?_, hf⟩ <;> simp [contract_deploy, hc, ha, haddr]

/-- C3 witness: a concrete deployment where the faucet fails still
reports success with the derived address and the funding sub-result. -/
theorem contract_deploy_funding_failure_keeps_success_witness :
    (contract_deploy envFundingFails ["c.simf"] "c.simf" true).1.success = true ∧
    (contract_deploy envFundingFails ["c.simf"] "c.simf" true).1.address =
      some "ex1qqsampleaddress" ∧
    (contract_deploy envFundingFails ["c.simf"] "c.simf" true).1.funding =
      some envFundingFails.faucet := by
  have h := contract_deploy_funding_failure_keeps_success envFundingFails ["c.simf"] "c.simf"
    (by decide) (by decide) (by decide) (by decide)
  refine ⟨h.1, ?_, h.2.2.2.2.1⟩
  rw [h.2.1]
  decide

/-- C4: on every exit path of `compileSource` (compiler missing, write
failure, compile success or compile failure), the temporary file of the invocation
file is absent from the final filesystem. -/
theorem compileSource_removes_temp
    (env : ToolEnv) (fs : List String) (source : String)
    (h : tmpFileName env.now ∉ fs) :
    tmpFileName env.now ∉ (compileSource env fs source).2.1 := by
  cases hs : env.simcAvailable with
  | false => simpa [compileSource, hs] using h
  | true =>
      cases hw : env.writeOutcome with
      | some msg => simpa [compileSource, hs, hw] using h
      | none => simp [compileSource, hs, hw, List.mem_filter]

/-- C4 witness: a concrete successful compile-from-source run leaves no
temporary file behind. -/
theorem compileSource_removes_temp_witness :
    "/tmp/simplicity-0.simf" ∉ (compileSource envFundingFails [] "fn main()").2.1 := by
  have heq : tmpFileName envFundingFails.now = "/tmp/simplicity-0.simf" := by decide
  have h := compileSource_removes_temp envFundingFails [] "fn main()" (by simp)
  rw [heq] at h
  exact h

/-- C10: when syntax validation reports at least one error, the
compile-from-source handler returns the fixed validation-failure response
with the full validation result attached, leaves the filesystem
untouched and performs no external effect at all (no temporary-file
write, no probe, no subprocess); moreover the compiler is only ever
invoked when validation reported zero errors. -/
theorem compile_source_handler_validation_gate
    (env : ToolEnv) (fs : List String) (source : String) :
    (( validateSyntax source).errors ≠ [] →
      (simplicity_compile_source env fs source).1 =
        { success := false, error := some "Syntax validation failed",
          validation := some ( validateSyntax source),
          tip := some validationFailedTip } ∧
      (simplicity_compile_source env fs source).2.1 = fs ∧
      (simplicity_compile_source env fs source).2.2 = []) ∧
    (∀ p, Event.execCompiler p ∈ (simplicity_compile_source env fs source).2.2 →
      ( validateSyntax source).errors = []) := by
  have hv := validateSyntax_valid_eq source
  cases hval : ( validateSyntax source).valid
  · rw [hval] at hv
    have herr : ( validateSyntax source).errors ≠ [] := by
      intro hnil
      rw [hnil] at hv
      simp at hv
    refine ⟨fun _ => ?_, fun p hp => ?_⟩
    · refine ⟨?_, ?_, ?_⟩ <;> simp [simplicity_compile_source, hval]
    · exfalso
      have : (simplicity_compile_source env fs source).2.2 = [] := by
        simp [simplicity_compile_source, hval]
      rw [this] at hp
      exact (List.not_mem_nil _) hp
  · rw [hval] at hv
    have herr : ( validateSyntax source).errors = [] := by
      have hlen := beq_iff_eq.mp hv.symm
      exact List.length_eq_zero.mp hlen
    exact ⟨fun hne => absurd herr hne, fun p _ => herr⟩

/-- Helper: `String.append` concatenates the character lists. -/
theorem string_append_data (a b : String) : (a ++ b).data = a.data ++ b.data := rfl

/-- Helper: the fuel-based renderer produces the decimal digits
(most-significant first) whenever the fuel bounds the number. -/
theorem natDecCore_eq_digits (fuel : Nat) :
    ∀ n, n ≤ fuel → natDecCore fuel n = ((Nat.digits 10 n).map Nat.digitChar).reverse := by
  induction fuel with
  | zero =>
      intro n hn
      have h0 : n = 0 := Nat.le_zero.mp hn
      subst h0
      simp [natDecCore]
  | succ fuel ih =>
      intro n hn
      cases n with
      | zero => simp [natDecCore]
      | succ m =>
          have hstep : natDecCore (fuel + 1) (m + 1) =
              natDecCore fuel ((m + 1) / 10) ++ [Nat.digitChar ((m + 1) % 10)] := rfl
          have hdiv : (m + 1) / 10 < m + 1 := Nat.div_lt_self (Nat.succ_pos m) (by norm_num)
          have hle : (m + 1) / 10 ≤ fuel := by omega
          rw [hstep, ih _ hle,
            Nat.digits_def' (by norm_num : (1 : ℕ) < 10) (Nat.succ_pos m)]
          simp

/-- Helper: `Nat.digitChar` is injective below ten. -/
theorem digitChar_inj_lt :
    ∀ a, a < 10 → ∀ b, b < 10 → Nat.digitChar a = Nat.digitChar b → a = b := by decide

/-- Helper: mapping `Nat.digitChar` over lists of decimal digits is
injective. -/
theorem map_digitChar_inj :
    ∀ (l1 l2 : List Nat), (∀ d ∈ l1, d < 10) → (∀ d ∈ l2, d < 10) →
      l1.map Nat.digitChar = l2.map Nat.digitChar → l1 = l2
  | [], [], _, _, _ => rfl
  | [], _ :: _, _, _, h => by simp at h
  | _ :: _, [], _, _, h => by simp at h
  | a :: l1, b :: l2, h1, h2, h => by
      simp only [List.map_cons, List.cons.injEq] at h
      have hab := digitChar_inj_lt a (h1 a (by simp)) b (h2 b (by simp)) h.1
      have htl := map_digitChar_inj l1 l2 (fun d hd => h1 d (by simp [hd]))
        (fun d hd => h2 d (by simp [hd])) h.2
      rw [hab, htl]

/-- Helper: a decimal digit string equal to the single character 0 can
only come from the number zero. -/
theorem digits_string_zero (n : Nat)
    (h : ((Nat.digits 10 n).map Nat.digitChar).reverse = ['0']) : n = 0 := by
  have hmap : (Nat.digits 10 n).map Nat.digitChar = ['0'] := by
    have := congrArg List.reverse h
    simpa using this
  cases hd : Nat.digits 10 n with
  | nil => exact (Nat.digits_eq_nil_iff_eq_zero.mp hd)
  | cons a l =>
      rw [hd] at hmap
      simp only [List.map_cons, List.cons.injEq] at hmap
      have hl : l = [] := by
        have := hmap.2
        cases l with
        | nil => rfl
        | cons b t => simp at this
      have ha : a < 10 := by
        have hmem : a ∈ Nat.digits 10 n := by
          rw [hd]
          exact List.mem_cons_self a l
        exact Nat.digits_lt_base (by norm_num) hmem
      have ha0 : a = 0 :=
        digitChar_inj_lt a ha 0 (by norm_num) (by simpa using hmap.1)
      have := Nat.ofDigits_digits 10 n
      rw [hd, hl, ha0] at this
      simpa [Nat.ofDigits] using this.symm

/-- Helper: the decimal rendering of the timestamp is injective. -/
theorem natToDecimal_inj (m n : Nat) (h : natToDecimal m = natToDecimal n) : m = n := by
  unfold natToDecimal at h
  by_cases hm : m = 0 <;> by_cases hn : n = 0
  · rw [hm, hn]
  · exfalso
    rw [if_pos hm, if_neg hn] at h
    have hdata := congrArg String.data h.symm
    have hzero : ((Nat.digits 10 n).map Nat.digitChar).reverse = ['0'] := by
      rw [← natDecCore_eq_digits n n le_rfl]
      exact hdata
    exact hn (digits_string_zero n hzero)
  · exfalso
    rw [if_neg hm, if_pos hn] at h
    have hdata := congrArg String.data h
    have hzero : ((Nat.digits 10 m).map Nat.digitChar).reverse = ['0'] := by
      rw [← natDecCore_eq_digits m m le_rfl]
      exact hdata
    exact hm (digits_string_zero m hzero)
  · rw [if_neg hm, if_neg hn] at h
    have hdata := congrArg String.data h
    have hrev : ((Nat.digits 10 m).map Nat.digitChar).reverse =
        ((Nat.digits 10 n).map Nat.digitChar).reverse := by
      rw [← natDecCore_eq_digits m m le_rfl, ← natDecCore_eq_digits n n le_rfl]
      exact hdata
    have hmap := List.reverse_injective hrev
    have hdig := map_digitChar_inj (Nat.digits 10 m) (Nat.digits 10 n)
      (fun d hd => Nat.digits_lt_base (by norm_num) hd)
      (fun d hd => Nat.digits_lt_base (by norm_num) hd) hmap
    exact Nat.digits_inj_iff.mp hdig

/-- Helper: the temporary file name determines the timestamp. -/
theorem tmpFileName_inj (n1 n2 : Nat) (h : tmpFileName n1 = tmpFileName n2) : n1 = n2 := by
  apply natToDecimal_inj
  unfold tmpFileName at h
  have hd := congrArg String.data h
  simp only [string_append_data, List.append_assoc] at hd
  have h2 := List.append_cancel_left hd
  have h3 := List.append_cancel_right h2
  exact congrArg String.mk h3

/-- Helper: any temporary path an invocation of `compileSource` writes is
exactly the timestamp-derived name for that invocation. -/
theorem tempPathsWritten_compileSource (env : ToolEnv) (fs : List String) (s p : String)
    (h : p ∈ tempPathsWritten (compileSource env fs s).2.2) : p = tmpFileName env.now := by
  cases hs : env.simcAvailable with
  | false => simp [compileSource, hs, tempPathsWritten] at h
  | true =>
      cases hw : env.writeOutcome with
      | none =>
          rcases compileFile_trace_cases env (tmpFileName env.now :: fs) (tmpFileName env.now)
            with hc | hc | hc <;>
            simp [compileSource, hs, hw, tempPathsWritten, hc] at h <;>
            exact h
      | some msg => simp [compileSource, hs, hw, tempPathsWritten] at h

/-- C9 amended: the temporary file path written by `compileSource` is a
function of the millisecond timestamp `Date.now()` alone, so the paths of
two invocations are distinct exactly when their timestamps differ; two
invocations inside the same millisecond (e.g. concurrent ones) share the
same path. -/
theorem compileSource_temp_paths_distinct_iff
    (env1 env2 : ToolEnv) (fs1 fs2 : List String) (s1 s2 p1 p2 : String)
    (h1 : p1 ∈ tempPathsWritten (compileSource env1 fs1 s1).2.2)
    (h2 : p2 ∈ tempPathsWritten (compileSource env2 fs2 s2).2.2) :
    p1 = p2 ↔ env1.now = env2.now := by
  rw [tempPathsWritten_compileSource env1 fs1 s1 p1 h1,
      tempPathsWritten_compileSource env2 fs2 s2 p2 h2]
  constructor
  · exact tmpFileName_inj env1.now env2.now
  · intro h
    rw [h]

/-- C9 counterexample: two distinct invocations (different source texts)
whose `Date.now()` timestamps fall in the same millisecond write the very
same temporary file path, refuting per-invocation uniqueness. -/
theorem compileSource_same_millisecond_collision :
    "contract A" ≠ "contract B" ∧
    tempPathsWritten (compileSource envFundingFails [] "contract A").2.2 =
      ["/tmp/simplicity-0.simf"] ∧
    tempPathsWritten (compileSource envFundingFails [] "contract B").2.2 =
      ["/tmp/simplicity-0.simf"] :=
  ⟨by decide, by decide, by decide⟩

/-- C9 witness: two invocations one millisecond apart write distinct
temporary paths. -/
theorem compileSource_temp_paths_distinct_iff_witness :
    ("/tmp/simplicity-0.simf" = "/tmp/simplicity-1.simf") ↔ (0 = 1) :=
  compileSource_temp_paths_distinct_iff envFundingFails envNowOne [] [] "a" "b"
    "/tmp/simplicity-0.simf" "/tmp/simplicity-1.simf" (by decide) (by decide)

/-- C10 witness: a source with a validation error is rejected by the
handler without any external effect. -/
theorem compile_source_handler_validation_gate_witness :
    (simplicity_compile_source envFundingFails [] "let x = 1").1.success = false ∧
    (simplicity_compile_source envFundingFails [] "let x = 1").1.error =
      some "Syntax validation failed" ∧
    (simplicity_compile_source envFundingFails [] "let x = 1").2.2 = [] := by
  have h := (compile_source_handler_validation_gate envFundingFails [] "let x = 1").1
    (by decide)
  exact ⟨by rw [h.1], by rw [h.1], h.2.2⟩

end SimplicityMCP
